import Mathlib

/-!
# Verification of the Prism AI SQL Validation & Risk-Analysis Engine

Shallow embedding of the rule-based SQL validator found in
`supabase/functions/validate-query/index.ts` (module `sql-validator`).
Strings are modelled as their underlying character lists; each JavaScript
regular-expression pass is translated into an explicit left-to-right scan
with the same matching, greediness and non-overlap behaviour.  All scans
are written structurally (single-pass state machines, or with a fuel
argument equal to the input length, which a step-consumes-a-character
argument shows is never exhausted), so that every definition evaluates
inside the kernel.
-/

set_option maxRecDepth 100000
set_option maxHeartbeats 1000000
set_option linter.unusedVariables false

/-- ASCII word character, the JavaScript regex class `[A-Za-z0-9_]`. -/
def isWordChar (c : Char) : Bool := c.isAlpha || c.isDigit || c == '_'

/-- Whitespace as matched by the JavaScript regex class `\s` (ASCII part). -/
def isWhite (c : Char) : Bool :=
  c == ' ' || c == '\t' || c == '\n' || c == '\r' || c == '\x0b' || c == '\x0c'

/-- The single-quote character. -/
def squote : Char := Char.ofNat 39

/-- JavaScript `String.prototype.trim` on character lists. -/
def jsTrim (l : List Char) : List Char :=
  ((l.dropWhile isWhite).reverse.dropWhile isWhite).reverse

/-- JavaScript `toUpperCase` (ASCII). -/
def jsToUpper (l : List Char) : List Char := l.map Char.toUpper

/-- JavaScript `toLowerCase` (ASCII). -/
def jsToLower (l : List Char) : List Char := l.map Char.toLower

def jsTrimS (s : String) : String := ⟨jsTrim s.data⟩
def jsToUpperS (s : String) : String := ⟨jsToUpper s.data⟩
def jsToLowerS (s : String) : String := ⟨jsToLower s.data⟩

/-- State machine for one global pass of
`sql.replace(dash-dash to end-of-line, ' ')` (regex `--.*$`, flags `gm`):
`skipping = true` while inside a comment; the comment body is dropped, a
single space replaces it, and the terminating newline is kept (`.` does
not match a newline). -/
def dashGo : Bool → List Char → List Char
  | false, [] => []
  | false, '-' :: '-' :: rest => ' ' :: dashGo true rest
  | false, c :: rest => c :: dashGo false rest
  | true, [] => []
  | true, '\n' :: rest => '\n' :: dashGo false rest
  | true, _ :: rest => dashGo true rest

/-- First comment pass of `removeComments`. -/
def stripDashComments (l : List Char) : List Char := dashGo false l

/-- State machine for one global pass of
`sql.replace(block comment, ' ')` (regex `\/\*[\s\S]*?\*\/`, flag `g`):
while inside a candidate comment the consumed characters are kept (in
reverse) so that an unterminated `/*` — which the non-greedy regex never
matches — is restored verbatim at the end of the input. -/
def blockGo : Option (List Char) → List Char → List Char
  | none, [] => []
  | none, '/' :: '*' :: rest => blockGo (some ['*', '/']) rest
  | none, c :: rest => c :: blockGo none rest
  | some acc, [] => acc.reverse
  | some _, '*' :: '/' :: rest => ' ' :: blockGo none rest
  | some acc, c :: rest => blockGo (some (c :: acc)) rest

/-- Second comment pass of `removeComments`. -/
def stripBlockComments (l : List Char) : List Char := blockGo none l

/-- State machine for one global pass of
`sql.replace(hash to end-of-line, ' ')` (regex `#.*$`, flags `gm`). -/
def hashGo : Bool → List Char → List Char
  | false, [] => []
  | false, '#' :: rest => ' ' :: hashGo true rest
  | false, c :: rest => c :: hashGo false rest
  | true, [] => []
  | true, '\n' :: rest => '\n' :: hashGo false rest
  | true, _ :: rest => hashGo true rest

/-- Third comment pass of `removeComments`. -/
def stripHashComments (l : List Char) : List Char := hashGo false l

/-- `removeComments` from the validator: the three comment passes in order,
then `trim`. -/
def removeCommentsL (l : List Char) : List Char :=
  jsTrim (stripHashComments (stripBlockComments (stripDashComments l)))

/-- `removeComments` on strings. -/
def removeComments (s : String) : String := ⟨removeCommentsL s.data⟩

/-- State machine for one global pass of `.replace(q[^q]*q, '')` for a
quote character `q`: a complete quoted literal is deleted; an
unterminated opening quote — which the regex never matches — is restored
verbatim at the end of the input. -/
def quoteGo (q : Char) : Option (List Char) → List Char → List Char
  | none, [] => []
  | none, c :: rest =>
      if c == q then quoteGo q (some [c]) rest else c :: quoteGo q none rest
  | some acc, [] => acc.reverse
  | some acc, c :: rest =>
      if c == q then quoteGo q none rest else quoteGo q (some (c :: acc)) rest

/-- Removal of the quoted literals for quote character `q`. -/
def stripQuoted (q : Char) (l : List Char) : List Char := quoteGo q none l

/-- `.split(sep)` on character lists. -/
def splitOnChar (sep : Char) : List Char → List (List Char)
  | [] => [[]]
  | c :: rest =>
      if c == sep then [] :: splitOnChar sep rest
      else
        match splitOnChar sep rest with
        | [] => [[c]]
        | h :: t => (c :: h) :: t

/-- `hasMultipleStatements` from the validator. -/
def hasMultipleStatementsL (l : List Char) : Bool :=
  let cleaned := removeCommentsL l
  let noStrings := stripQuoted '"' (stripQuoted squote cleaned)
  decide (((splitOnChar ';' noStrings).filter (fun s => (jsTrim s).length > 0)).length > 1)

def hasMultipleStatements (s : String) : Bool := hasMultipleStatementsL s.data

/-! ## Data model -/

/-- `SchemaColumn` from the validator. -/
structure SchemaColumn where
  column_name : String
  data_type : String
  is_nullable : String
deriving DecidableEq, Repr

/-- `SchemaTable` from the validator. -/
structure SchemaTable where
  table_name : String
  columns : List SchemaColumn
deriving DecidableEq, Repr

/-- `OperationType` from the validator. -/
inductive OperationType
  | SELECT | INSERT | UPDATE | DELETE | DDL | UNKNOWN
deriving DecidableEq, Repr

/-- `RiskLevel` from the validator. -/
inductive RiskLevel
  | safe | moderate | high | critical
deriving DecidableEq, Repr

/-- The caller role: `'creator' | 'user'` (spec: Privileged / Restricted). -/
inductive Role
  | creator | user
deriving DecidableEq, Repr

/-- `OperationAnalysis` from the validator. -/
structure OperationAnalysis where
  operation_type : OperationType
  risk_level : RiskLevel
  affected_tables : List String
  affected_columns : List String
  estimated_rows : String
  warnings : List String
  requires_confirmation : Bool
deriving DecidableEq, Repr

/-- `ValidationResult` from the validator. -/
structure ValidationResult where
  is_valid : Bool
  reason : Option String := none
  sanitized_sql : Option String := none
  operation_analysis : Option OperationAnalysis := none
deriving DecidableEq, Repr

/-- An early-return rejection object (`is_valid: false` plus a reason). -/
def ValidationResult.reject (r : String) : ValidationResult :=
  { is_valid := false, reason := some r }

/-- The success object of `validateSQL`. -/
def ValidationResult.accept (s : String) (a : OperationAnalysis) : ValidationResult :=
  { is_valid := true, sanitized_sql := some s, operation_analysis := some a }

/-- `ROLE_PERMISSIONS`: both roles are granted the same operation list. -/
def ROLE_PERMISSIONS : Role → List OperationType
  | .creator => [.SELECT, .INSERT, .UPDATE, .DELETE]
  | .user => [.SELECT, .INSERT, .UPDATE, .DELETE]

def MAX_LIMIT : Nat := 1000
def DEFAULT_LIMIT : Nat := 100

/-- `DDL_KEYWORDS`, always blocked. -/
def DDL_KEYWORDS : List String := ["DROP", "ALTER", "TRUNCATE", "CREATE", "GRANT", "REVOKE"]

/-- `BLOCKED_PATTERNS`, system-level deny-list. -/
def BLOCKED_PATTERNS : List String :=
  ["INTO OUTFILE", "INTO DUMPFILE", "LOAD_FILE", "EXECUTE", "EXEC"]

def Role.toStr : Role → String
  | .creator => "creator"
  | .user => "user"

def OperationType.toStr : OperationType → String
  | .SELECT => "SELECT"
  | .INSERT => "INSERT"
  | .UPDATE => "UPDATE"
  | .DELETE => "DELETE"
  | .DDL => "DDL"
  | .UNKNOWN => "UNKNOWN"

/-! ## Operation classifier -/

/-- Case-insensitive literal-pattern test at the current position. -/
def ciPref : List Char → List Char → Bool
  | [], _ => true
  | _ :: _, [] => false
  | p :: ps, c :: cs => (p.toUpper == c.toUpper) && ciPref ps cs

/-- Regex `^KW\b` (keyword as the leading token, then a word boundary). -/
def startsKw (kw : List Char) (l : List Char) : Bool :=
  kw.isPrefixOf l &&
    (match l.drop kw.length with
     | [] => true
     | c :: _ => !isWordChar c)

def ddlTargets : List (List Char) :=
  ["TABLE".data, "INDEX".data, "VIEW".data, "DATABASE".data]

/-- Regex `KW\s+(TABLE|INDEX|VIEW|DATABASE)` anchored at the current
position (the word boundary before `KW` is checked by the caller). -/
def kwTargetAt (kw : List Char) (l : List Char) : Bool :=
  ciPref kw l &&
    (match l.drop kw.length with
     | c :: rest =>
         isWhite c && ddlTargets.any (fun t => ciPref t (rest.dropWhile isWhite))
     | [] => false)

/-- Test of regex `\bKW\s+(TABLE|INDEX|VIEW|DATABASE)` anywhere in the text;
`prevWord` records whether the previous character was a word character. -/
def scanKwTarget (kw : List Char) : Bool → List Char → Bool
  | _, [] => false
  | prevWord, c :: rest =>
      (!prevWord && kwTargetAt kw (c :: rest)) || scanKwTarget kw (isWordChar c) rest

/-- `detectOperationType` from the validator. -/
def detectOperationType (sql : String) : OperationType :=
  let cleaned := jsTrim (jsToUpper (removeCommentsL sql.data))
  if DDL_KEYWORDS.any (fun kw => startsKw kw.data cleaned || scanKwTarget kw.data false cleaned)
  then .DDL
  else if "SELECT".data.isPrefixOf cleaned || "WITH".data.isPrefixOf cleaned then .SELECT
  else if "INSERT".data.isPrefixOf cleaned then .INSERT
  else if "UPDATE".data.isPrefixOf cleaned then .UPDATE
  else if "DELETE".data.isPrefixOf cleaned then .DELETE
  else .UNKNOWN

/-! ## Table extractor -/

/-- Regex `([a-zA-Z_][a-zA-Z0-9_]*)` at the current position: the captured
identifier and the remainder after it. -/
def identTake : List Char → Option (List Char × List Char)
  | [] => none
  | c :: rest =>
      if c.isAlpha || c == '_' then
        some (c :: rest.takeWhile isWordChar, rest.dropWhile isWordChar)
      else none

/-- Match `W1\s+W2\s+...\s+([a-zA-Z_][a-zA-Z0-9_]*)` (case-insensitively)
at the current position, returning the captured identifier and the
remainder after the whole match. -/
def matchWordsIdent : List (List Char) → List Char → Option (List Char × List Char)
  | [], l => identTake l
  | w :: ws, l =>
      if ciPref w l then
        match l.drop w.length with
        | c :: rest =>
            if isWhite c then matchWordsIdent ws (rest.dropWhile isWhite) else none
        | [] => none
      else none

theorem dropWhile_len_le (p : Char → Bool) (l : List Char) :
    (l.dropWhile p).length ≤ l.length :=
  (List.dropWhile_sublist p).length_le

theorem takeWhile_len_le (p : Char → Bool) (l : List Char) :
    (l.takeWhile p).length ≤ l.length :=
  (List.takeWhile_sublist p).length_le

/-- Fuelled global scan of a `\bW1\s+W2...\s+(ident)` regex: left-to-right,
non-overlapping, resuming after each full match (the character before the
resume point is the last identifier character, a word character).  Every
step consumes at least one character, so fuel equal to the input length is
never exhausted. -/
def scanTablesF (words : List (List Char)) : Nat → Bool → List Char → List (List Char)
  | 0, _, _ => []
  | _ + 1, _, [] => []
  | fuel + 1, true, c :: rest => scanTablesF words fuel (isWordChar c) rest
  | fuel + 1, false, c :: rest =>
      match matchWordsIdent words (c :: rest) with
      | some (ident, rem) => jsToLower ident :: scanTablesF words fuel true rem
      | none => scanTablesF words fuel (isWordChar c) rest

def scanTables (words : List (List Char)) (l : List Char) : List (List Char) :=
  scanTablesF words l.length false l

/-- JavaScript `Set` insertion order: deduplicate keeping first occurrences. -/
def dedupFirst (l : List String) : List String :=
  l.foldl (fun acc x => if acc.contains x then acc else acc ++ [x]) []

/-- `Array.prototype.join` with a separator. -/
def joinSep (sep : String) : List String → String
  | [] => ""
  | [x] => x
  | x :: y :: rest => x ++ sep ++ joinSep sep (y :: rest)

/-- `extractTableNames` from the validator: union (in first-seen order) of
the `FROM`, `JOIN`, `INSERT INTO`, `UPDATE` and `DELETE FROM` captures,
lower-cased. -/
def extractTableNames (sql : String) : List String :=
  let cleaned := removeCommentsL sql.data
  let raw :=
    scanTables ["FROM".data] cleaned
      ++ scanTables ["JOIN".data] cleaned
      ++ scanTables ["INSERT".data, "INTO".data] cleaned
      ++ scanTables ["UPDATE".data] cleaned
      ++ scanTables ["DELETE".data, "FROM".data] cleaned
  dedupFirst (raw.map (fun l => (⟨l⟩ : String)))

/-! ## Column extractor -/

/-- Tail `\s+FROM` of the select-list regex. -/
def selectTail (l : List Char) : Bool :=
  match l with
  | c :: _ => isWhite c && ciPref "FROM".data (l.dropWhile isWhite)
  | [] => false

/-- Tail `(?:WHERE|$)` of the SET-clause regex. -/
def setTail (l : List Char) : Bool := ciPref "WHERE".data l || l.isEmpty

/-- Tail `(?:ORDER|GROUP|LIMIT|$)` of the WHERE-clause regex. -/
def whereTail (l : List Char) : Bool :=
  ciPref "ORDER".data l || ciPref "GROUP".data l || ciPref "LIMIT".data l || l.isEmpty

/-- Backtracking search for `\s+([\s\S]+?)TAIL` starting right after the
keyword: the `\s+` run is tried greedily (longest first), the lazy capture
shortest first; the first combination whose tail matches wins. -/
def lazyGreedyCapture (tail : List Char → Bool) (after : List Char) : Option (List Char) :=
  let w := (after.takeWhile isWhite).length
  if w == 0 then none
  else
    (List.range w).findSome? (fun i =>
      let rest := after.drop (w - i)
      (List.range rest.length).findSome? (fun j =>
        if tail (rest.drop (j + 1)) then some (rest.take (j + 1)) else none))

/-- First match of `KW\s+([\s\S]+?)TAIL` (case-insensitive, leftmost). -/
def scanCapture (kw : List Char) (tail : List Char → Bool) : List Char → Option (List Char)
  | [] => none
  | c :: rest =>
      match (if ciPref kw (c :: rest) then lazyGreedyCapture tail ((c :: rest).drop kw.length)
             else none) with
      | some cap => some cap
      | none => scanCapture kw tail rest

/-- Capture of `SELECT\s+([\s\S]+?)\s+FROM` (flag `i`). -/
def selectCapture (l : List Char) : Option (List Char) :=
  scanCapture "SELECT".data selectTail l

/-- Capture of `SET\s+([\s\S]+?)(?:WHERE|$)` (flag `i`). -/
def setCapture (l : List Char) : Option (List Char) :=
  scanCapture "SET".data setTail l

/-- Capture of `WHERE\s+([\s\S]+?)(?:ORDER|GROUP|LIMIT|$)` (flag `i`). -/
def whereCapture (l : List Char) : Option (List Char) :=
  scanCapture "WHERE".data whereTail l

/-- Match of `INSERT\s+INTO\s+\w+\s*\(([^)]+)\)` anchored at the current
position, returning the parenthesised column-list capture. -/
def insertAt (l : List Char) : Option (List Char) :=
  if ciPref "INSERT".data l then
    match l.drop 6 with
    | c1 :: r1 =>
        if isWhite c1 then
          let a1 := r1.dropWhile isWhite
          if ciPref "INTO".data a1 then
            match a1.drop 4 with
            | c2 :: r2 =>
                if isWhite c2 then
                  match r2.dropWhile isWhite with
                  | c3 :: r3 =>
                      if isWordChar c3 then
                        match (r3.dropWhile isWordChar).dropWhile isWhite with
                        | '(' :: r4 =>
                            let cap := r4.takeWhile (fun ch => !(ch == ')'))
                            if cap.length == 0 then none
                            else if (r4.drop cap.length).isEmpty then none
                            else some cap
                        | _ => none
                      else none
                  | [] => none
                else none
            | [] => none
          else none
        else none
    | [] => none
  else none

/-- First (leftmost) match of the INSERT column-list regex. -/
def insertCapture : List Char → Option (List Char)
  | [] => none
  | c :: rest =>
      match insertAt (c :: rest) with
      | some cap => some cap
      | none => insertCapture rest

/-- Fuelled global scan of `([a-zA-Z_][a-zA-Z0-9_]*)\s*=` over a SET
clause: a match needs the maximal identifier run, optional whitespace,
then `=`; on failure the scan advances one character, on success it
resumes after the `=` (both consume at least one character). -/
def scanAssignsF : Nat → List Char → List (List Char)
  | 0, _ => []
  | _ + 1, [] => []
  | fuel + 1, c :: rest =>
      if c.isAlpha || c == '_' then
        match (rest.dropWhile isWordChar).dropWhile isWhite with
        | '=' :: rem => jsToLower (c :: rest.takeWhile isWordChar) :: scanAssignsF fuel rem
        | _ => scanAssignsF fuel rest
      else scanAssignsF fuel rest

def scanAssigns (l : List Char) : List (List Char) := scanAssignsF l.length l

/-- The comparison-operator alternation `(?:=|<|>|LIKE|IN|IS|BETWEEN)`:
number of characters consumed by the first matching alternative. -/
def opPrefLen (l : List Char) : Option Nat :=
  match l with
  | '=' :: _ => some 1
  | '<' :: _ => some 1
  | '>' :: _ => some 1
  | _ =>
      if ciPref "LIKE".data l then some 4
      else if ciPref "IN".data l then some 2
      else if ciPref "IS".data l then some 2
      else if ciPref "BETWEEN".data l then some 7
      else none

/-- At an identifier-start character, backtracking attempt of
`([a-zA-Z_][a-zA-Z0-9_]*)\s*OP`: identifier lengths are tried greedily
(longest first); returns the captured identifier (lower-cased) and the
remainder after the operator. -/
def tryIdentOp (l : List Char) : Option (List Char × List Char) :=
  match l with
  | [] => none
  | c :: rest =>
      if c.isAlpha || c == '_' then
        let maxRun := (rest.takeWhile isWordChar).length + 1
        (List.range maxRun).findSome? (fun i =>
          let len := maxRun - i
          let ws := (l.drop len).dropWhile isWhite
          match opPrefLen ws with
          | some k => some (jsToLower (l.take len), ws.drop k)
          | none => none)
      else none

/-- Fuelled global scan of the WHERE-clause column regex
`([a-zA-Z_][a-zA-Z0-9_]*)\s*(?:=|<|>|LIKE|IN|IS|BETWEEN)` (each step
consumes at least one character). -/
def scanCompareF : Nat → List Char → List (List Char)
  | 0, _ => []
  | _ + 1, [] => []
  | fuel + 1, c :: rest =>
      match tryIdentOp (c :: rest) with
      | some (col, rem) => col :: scanCompareF fuel rem
      | none => scanCompareF fuel rest

def scanCompare (l : List Char) : List (List Char) := scanCompareF l.length l

/-- `extractColumnNames` from the validator: SELECT list, INSERT column
list, SET assignments and WHERE comparisons, lower-cased, first-seen
order. -/
def extractColumnNames (sql : String) : List String :=
  let cleaned := removeCommentsL sql.data
  let selectCols : List (List Char) :=
    match selectCapture cleaned with
    | some cap =>
        if jsTrim cap == ['*'] then []
        else
          (splitOnChar ',' cap).filterMap (fun part =>
            match jsTrim part with
            | c :: rest =>
                if c.isAlpha || c == '_' then some (jsToLower (c :: rest.takeWhile isWordChar))
                else none
            | [] => none)
    | none => []
  let insertCols : List (List Char) :=
    match insertCapture cleaned with
    | some cap => (splitOnChar ',' cap).map (fun c => jsToLower (jsTrim c))
    | none => []
  let setCols : List (List Char) :=
    match setCapture cleaned with
    | some cap => scanAssigns cap
    | none => []
  let whereCols : List (List Char) :=
    match whereCapture cleaned with
    | some cap => scanCompare cap
    | none => []
  dedupFirst ((selectCols ++ insertCols ++ setCols ++ whereCols).map (fun l => (⟨l⟩ : String)))

/-! ## Risk analyzer -/

/-- JavaScript `String.prototype.includes`: substring test. -/
def containsSub (pat : List Char) : List Char → Bool
  | [] => pat.isEmpty
  | c :: rest => pat.isPrefixOf (c :: rest) || containsSub pat rest

/-- Fuelled count of global matches of `\),\s*\(` (used for `VALUES` tuple
counting): on a match the scan resumes after the `(`, otherwise it
advances one character. -/
def countTupleSepsF : Nat → List Char → Nat
  | 0, _ => 0
  | _ + 1, [] => 0
  | fuel + 1, ')' :: ',' :: r2 =>
      (match r2.dropWhile isWhite with
       | '(' :: rem => countTupleSepsF fuel rem + 1
       | _ => countTupleSepsF fuel (',' :: r2))
  | fuel + 1, _ :: rest => countTupleSepsF fuel rest

def countTupleSeps (l : List Char) : Nat := countTupleSepsF l.length l

/-- `Inserting N row(s).` -/
def insertRowsMsg (n : Nat) : String := "Inserting " ++ toString n ++ " row(s)."

/-- `analyzeOperation` from the validator.  The `schema` parameter is
accepted (as in the source) but never read. -/
def analyzeOperation (sql : String) (schema : List SchemaTable) : OperationAnalysis :=
  let opType := detectOperationType sql
  let tables := extractTableNames sql
  let columns := extractColumnNames sql
  let upper := jsToUpper sql.data
  match opType with
  | .SELECT =>
      { operation_type := .SELECT, risk_level := .safe, affected_tables := tables,
        affected_columns := columns, estimated_rows := "multiple", warnings := [],
        requires_confirmation := false }
  | .INSERT =>
      if containsSub "VALUES".data upper then
        { operation_type := .INSERT, risk_level := .moderate, affected_tables := tables,
          affected_columns := columns,
          estimated_rows := if countTupleSeps upper + 1 == 1 then "single" else "multiple",
          warnings := ["This will add new records to the database.",
                       insertRowsMsg (countTupleSeps upper + 1)],
          requires_confirmation := true }
      else if containsSub "SELECT".data upper then
        { operation_type := .INSERT, risk_level := .high, affected_tables := tables,
          affected_columns := columns, estimated_rows := "multiple",
          warnings := ["This will add new records to the database.",
                       "INSERT from SELECT may affect many rows."],
          requires_confirmation := true }
      else
        { operation_type := .INSERT, risk_level := .moderate, affected_tables := tables,
          affected_columns := columns, estimated_rows := "unknown",
          warnings := ["This will add new records to the database."],
          requires_confirmation := true }
  | .UPDATE =>
      if !(containsSub "WHERE".data upper) then
        { operation_type := .UPDATE, risk_level := .critical, affected_tables := tables,
          affected_columns := columns, estimated_rows := "all",
          warnings := ["⚠️ NO WHERE CLAUSE - This will update ALL rows in the table!"],
          requires_confirmation := true }
      else if containsSub "WHERE 1=1".data upper || containsSub "WHERE TRUE".data upper then
        { operation_type := .UPDATE, risk_level := .critical, affected_tables := tables,
          affected_columns := columns, estimated_rows := "all",
          warnings := ["This will modify existing records.",
                       "⚠️ WHERE clause matches ALL rows!"],
          requires_confirmation := true }
      else
        { operation_type := .UPDATE, risk_level := .high, affected_tables := tables,
          affected_columns := columns, estimated_rows := "multiple",
          warnings := ["This will modify existing records."],
          requires_confirmation := true }
  | .DELETE =>
      if !(containsSub "WHERE".data upper) then
        { operation_type := .DELETE, risk_level := .critical, affected_tables := tables,
          affected_columns := columns, estimated_rows := "all",
          warnings := ["⚠️ NO WHERE CLAUSE - This will DELETE ALL rows in the table!"],
          requires_confirmation := true }
      else if containsSub "WHERE 1=1".data upper || containsSub "WHERE TRUE".data upper then
        { operation_type := .DELETE, risk_level := .critical, affected_tables := tables,
          affected_columns := columns, estimated_rows := "all",
          warnings := ["This will permanently delete records.",
                       "⚠️ WHERE clause matches ALL rows!"],
          requires_confirmation := true }
      else
        { operation_type := .DELETE, risk_level := .high, affected_tables := tables,
          affected_columns := columns, estimated_rows := "multiple",
          warnings := ["This will permanently delete records."],
          requires_confirmation := true }
  | .DDL =>
      { operation_type := .DDL, risk_level := .critical, affected_tables := tables,
        affected_columns := columns, estimated_rows := "unknown",
        warnings := ["DDL operations are blocked for safety."],
        requires_confirmation := true }
  | .UNKNOWN =>
      { operation_type := .UNKNOWN, risk_level := .high, affected_tables := tables,
        affected_columns := columns, estimated_rows := "unknown",
        warnings := ["Unknown operation type detected."],
        requires_confirmation := true }

/-! ## Blocked patterns and limit enforcement -/

/-- `hasBlockedPatterns` from the validator: first deny-list entry that is a
substring of the upper-cased text. -/
def hasBlockedPatterns (sql : String) : Option String :=
  BLOCKED_PATTERNS.find? (fun p => containsSub p.data (jsToUpper sql.data))

/-- JavaScript `parseInt` on a digit capture. -/
def natOfDigits (l : List Char) : Nat :=
  l.foldl (fun n c => n * 10 + (c.toNat - 48)) 0

/-- Match of `LIMIT\s+(\d+)` anchored at the current position (the word
boundary before `LIMIT` is checked by the caller): the digit capture and
the remainder after the digits. -/
def limitHereAux (l : List Char) : Option (List Char × List Char) :=
  if ciPref "LIMIT".data l then
    match l.drop 5 with
    | c :: rest =>
        if isWhite c then
          let r := rest.dropWhile isWhite
          let ds := r.takeWhile Char.isDigit
          if ds.length == 0 then none else some (ds, r.drop ds.length)
        else none
    | [] => none
  else none

/-- First match of `\bLIMIT\s+(\d+)` (flag `i`). -/
def limitScan : Bool → List Char → Option (List Char × List Char)
  | _, [] => none
  | prevWord, c :: rest =>
      match (if prevWord then none else limitHereAux (c :: rest)) with
      | some x => some x
      | none => limitScan (isWordChar c) rest

/-- Replacement of the first match of `\bLIMIT\s+\d+` (flag `i`) by
`LIMIT 1000`. -/
def replaceLimitOnce : Bool → List Char → List Char
  | _, [] => []
  | prevWord, c :: rest =>
      match (if prevWord then none else limitHereAux (c :: rest)) with
      | some (_, rem) => ("LIMIT " ++ toString MAX_LIMIT).data ++ rem
      | none => c :: replaceLimitOnce (isWordChar c) rest

/-- `.replace(semicolons-then-whitespace-at-end, '')` (regex `;*\s*$`):
removes the longest suffix consisting of semicolons followed by
whitespace. -/
def stripTrailSemis (l : List Char) : List Char :=
  ((l.reverse.dropWhile isWhite).dropWhile (fun c => c == ';')).reverse

/-- `enforceLimit` from the validator. -/
def enforceLimit (sql : String) : String :=
  match limitScan false sql.data with
  | some (ds, _) =>
      if natOfDigits ds > MAX_LIMIT then ⟨replaceLimitOnce false (jsTrim sql.data)⟩
      else ⟨jsTrim sql.data⟩
  | none =>
      if detectOperationType sql = .SELECT then
        ⟨stripTrailSemis (jsTrim sql.data)⟩ ++ " LIMIT " ++ toString DEFAULT_LIMIT
      else ⟨jsTrim sql.data⟩

/-! ## Main validation function -/

/-- Fixed skip-list of aggregate/keyword tokens for column validation. -/
def skipList : List String :=
  ["count", "sum", "avg", "max", "min", "now", "current_timestamp", "id"]

def emptyMsg : String := "Query cannot be empty."

def multiMsg : String :=
  "Multiple SQL statements are not allowed. Please submit one query at a time."

def blockedMsg (p : String) : String :=
  "Blocked pattern detected: \"" ++ p ++ "\". This operation is not permitted."

def ddlMsg : String :=
  "DDL operations (CREATE, DROP, ALTER, TRUNCATE) are not allowed. Only data operations are permitted."

def schemaTableNames (schema : List SchemaTable) : List String :=
  schema.map (fun t => jsToLowerS t.table_name)

def permMsg (op : OperationType) (role : Role) (ops : List OperationType) : String :=
  "Operation \"" ++ op.toStr ++ "\" is not allowed for role \"" ++ role.toStr
    ++ "\". Allowed operations: " ++ joinSep ", " (ops.map OperationType.toStr) ++ "."

def tableMsg (t : String) (schema : List SchemaTable) : String :=
  "Table \"" ++ t ++ "\" does not exist. Available tables: "
    ++ joinSep ", " (schemaTableNames schema) ++ "."

def accessMsg (t : String) : String :=
  "Access denied: Table \"" ++ t ++ "\" is not accessible with your permissions."

/-- Step 7 loop: first referenced table missing from the schema. -/
def missingTable (cleaned : String) (schema : List SchemaTable) : Option String :=
  (extractTableNames cleaned).find? (fun t => !((schemaTableNames schema).contains t))

/-- Step 8 loop: first referenced table outside the allowlist — only
checked for the `user` role and only when an allowlist was supplied. -/
def deniedTable (cleaned : String) (role : Role) (allowedTables : Option (List String)) :
    Option String :=
  match role, allowedTables with
  | .user, some allowed =>
      (extractTableNames cleaned).find? (fun t => !((allowed.map jsToLowerS).contains t))
  | _, _ => none

/-- Tables of the schema referenced by the statement. -/
def tablesInQuery (cleaned : String) (schema : List SchemaTable) : List SchemaTable :=
  schema.filter (fun t => (extractTableNames cleaned).contains (jsToLowerS t.table_name))

/-- Lower-cased column names of the referenced tables. -/
def columnsInQueryTables (cleaned : String) (schema : List SchemaTable) : List String :=
  (tablesInQuery cleaned schema).flatMap (fun t => t.columns.map (fun c => jsToLowerS c.column_name))

def colMsg (c : String) (cleaned : String) (schema : List SchemaTable) : String :=
  "Column \"" ++ c ++ "\" does not exist in the queried table(s). Available: "
    ++ joinSep ", " ((columnsInQueryTables cleaned schema).take 5) ++ "..."

/-- Step 9 loop: first referenced column that is not in the skip-list while
the referenced tables expose at least one column and do not contain it. -/
def badColumn (cleaned : String) (schema : List SchemaTable) : Option String :=
  (extractColumnNames cleaned).find? (fun c =>
    !(skipList.contains c) && decide ((columnsInQueryTables cleaned schema).length > 0)
      && !((columnsInQueryTables cleaned schema).contains c))

/-- `validateSQL` from the validator: the ordered, short-circuiting
access-control gate. -/
def validateSQL (sql : String) (schema : List SchemaTable) (role : Role)
    (allowedTables : Option (List String)) : ValidationResult :=
  if (jsTrimS sql).length = 0 then .reject emptyMsg
  else if hasMultipleStatements (removeComments sql) then .reject multiMsg
  else match hasBlockedPatterns (removeComments sql) with
  | some p => .reject (blockedMsg p)
  | none =>
      if detectOperationType (removeComments sql) = .DDL then .reject ddlMsg
      else if !((ROLE_PERMISSIONS role).contains (detectOperationType (removeComments sql))) then
        .reject (permMsg (detectOperationType (removeComments sql)) role (ROLE_PERMISSIONS role))
      else match missingTable (removeComments sql) schema with
      | some t => .reject (tableMsg t schema)
      | none =>
          match deniedTable (removeComments sql) role allowedTables with
          | some t => .reject (accessMsg t)
          | none =>
              match badColumn (removeComments sql) schema with
              | some c => .reject (colMsg c (removeComments sql) schema)
              | none =>
                  .accept (enforceLimit (removeComments sql))
                    (analyzeOperation (removeComments sql) schema)

/-- The demo schema supplied by the `validate-query` endpoint when the
caller provides none. -/
def demoSchema : List SchemaTable :=
  [{ table_name := "demo_users",
     columns := [{ column_name := "id", data_type := "uuid", is_nullable := "NO" },
                 { column_name := "email", data_type := "varchar", is_nullable := "NO" },
                 { column_name := "name", data_type := "varchar", is_nullable := "YES" },
                 { column_name := "created_at", data_type := "timestamp", is_nullable := "NO" }] },
   { table_name := "demo_orders",
     columns := [{ column_name := "id", data_type := "uuid", is_nullable := "NO" },
                 { column_name := "user_id", data_type := "uuid", is_nullable := "NO" },
                 { column_name := "total_amount", data_type := "numeric", is_nullable := "NO" },
                 { column_name := "status", data_type := "varchar", is_nullable := "NO" },
                 { column_name := "created_at", data_type := "timestamp", is_nullable := "NO" }] },
   { table_name := "demo_products",
     columns := [{ column_name := "id", data_type := "uuid", is_nullable := "NO" },
                 { column_name := "name", data_type := "varchar", is_nullable := "NO" },
                 { column_name := "price", data_type := "numeric", is_nullable := "NO" },
                 { column_name := "category", data_type := "varchar", is_nullable := "YES" },
                 { column_name := "in_stock", data_type := "boolean", is_nullable := "NO" }] }]
/-! ## Auxiliary lemmas -/

theorem mem_takeWhile_white {p : Char → Bool} {x : Char} :
    ∀ {l : List Char}, x ∈ l.takeWhile p → p x = true := by
  intro l
  induction l with
  | nil => intro h; simp [List.takeWhile] at h
  | cons c rest ih =>
      intro h
      rw [List.takeWhile_cons] at h
      split at h
      · rcases List.mem_cons.mp h with h1 | h1
        · subst h1; assumption
        · exact ih h1
      · simp at h

theorem trimNil_white {l : List Char} (h : jsTrim l = []) : ∀ c ∈ l, isWhite c = true := by
  unfold jsTrim at h
  rw [List.reverse_eq_nil_iff, List.dropWhile_eq_nil_iff] at h
  have hdrop : ∀ c ∈ l.dropWhile isWhite, isWhite c = true := by
    intro c hc
    exact h c (List.mem_reverse.mpr hc)
  intro c hc
  rw [← List.takeWhile_append_dropWhile (p := isWhite) (l := l)] at hc
  rcases List.mem_append.mp hc with h1 | h1
  · exact mem_takeWhile_white h1
  · exact hdrop c h1

theorem dashGo_white : ∀ l : List Char, (∀ c ∈ l, isWhite c = true) → dashGo false l = l := by
  intro l
  induction l with
  | nil => intro _; rfl
  | cons c rest ih =>
      intro h
      have hc := h c (by simp)
      have hne : ¬(c = '-') := by
        intro he; rw [he] at hc; exact absurd hc (by decide)
      have hrest := fun x hm => h x (List.mem_cons_of_mem _ hm)
      cases rest with
      | nil => simp only [dashGo]
      | cons d rest2 =>
          have heq : dashGo false (c :: d :: rest2) = c :: dashGo false (d :: rest2) := by
            rw [dashGo]
            intro r hcd _
            exact hne hcd
          rw [heq, ih hrest]

theorem blockGo_white : ∀ l : List Char, (∀ c ∈ l, isWhite c = true) → blockGo none l = l := by
  intro l
  induction l with
  | nil => intro _; rfl
  | cons c rest ih =>
      intro h
      have hc := h c (by simp)
      have hne : ¬(c = '/') := by
        intro he; rw [he] at hc; exact absurd hc (by decide)
      have hrest := fun x hm => h x (List.mem_cons_of_mem _ hm)
      cases rest with
      | nil => simp only [blockGo]
      | cons d rest2 =>
          have heq : blockGo none (c :: d :: rest2) = c :: blockGo none (d :: rest2) := by
            rw [blockGo]
            intro r hcd _
            exact hne hcd
          rw [heq, ih hrest]

theorem hashGo_white : ∀ l : List Char, (∀ c ∈ l, isWhite c = true) → hashGo false l = l := by
  intro l
  induction l with
  | nil => intro _; rfl
  | cons c rest ih =>
      intro h
      have hc := h c (by simp)
      have hne : ¬(c = '#') := by
        intro he; rw [he] at hc; exact absurd hc (by decide)
      have hrest := fun x hm => h x (List.mem_cons_of_mem _ hm)
      have heq : hashGo false (c :: rest) = c :: hashGo false rest := by
        rw [hashGo]
        intro hcd
        exact hne hcd
      rw [heq, ih hrest]

theorem removeCommentsL_white {l : List Char} (h : ∀ c ∈ l, isWhite c = true) :
    removeCommentsL l = [] := by
  unfold removeCommentsL stripDashComments stripBlockComments stripHashComments
  rw [dashGo_white l h, blockGo_white l h, hashGo_white l h]
  unfold jsTrim
  rw [List.dropWhile_eq_nil_iff.mpr h]
  simp

theorem multi_trim_ne {sql : String} (h : hasMultipleStatements (removeComments sql) = true) :
    ¬((jsTrimS sql).length = 0) := by
  intro h0
  have hw : ∀ c ∈ sql.data, isWhite c = true := by
    apply trimNil_white
    have hlen : (jsTrim sql.data).length = 0 := h0
    exact List.length_eq_zero.mp hlen
  have hrc : removeComments sql = ⟨[]⟩ := by
    unfold removeComments
    rw [removeCommentsL_white hw]
  rw [hrc] at h
  exact absurd h (by decide)

theorem dropWhile_head_not {p : Char → Bool} :
    ∀ {l : List Char} {c : Char} {r : List Char}, l.dropWhile p = c :: r → p c = false := by
  intro l
  induction l with
  | nil => intro c r h; simp [List.dropWhile] at h
  | cons d rest ih =>
      intro c r h
      rw [List.dropWhile_cons] at h
      split at h
      · exact ih h
      next hp =>
        cases h
        simpa using hp

theorem jsTrim_idem (l : List Char) : jsTrim (jsTrim l) = jsTrim l := by
  have claimA : (jsTrim l).dropWhile isWhite = jsTrim l := by
    cases h : jsTrim l with
    | nil => simp
    | cons c r =>
        have hhead : (jsTrim l).head? = some c := by rw [h]; rfl
        have hcw : isWhite c = false := by
          unfold jsTrim at hhead
          rw [List.head?_reverse] at hhead
          have hne : (l.dropWhile isWhite).reverse.dropWhile isWhite ≠ [] := by
            intro hnil
            unfold jsTrim at h
            rw [hnil] at h
            simp at h
          have hlast : ((l.dropWhile isWhite).reverse.dropWhile isWhite).getLast?
              = (l.dropWhile isWhite).reverse.getLast? := by
            conv_rhs => rw [← List.takeWhile_append_dropWhile (p := isWhite)
              (l := (l.dropWhile isWhite).reverse)]
            exact (List.getLast?_append_of_ne_nil _ hne).symm
          rw [hlast, ← List.head?_reverse, List.reverse_reverse] at hhead
          cases hdl : l.dropWhile isWhite with
          | nil => rw [hdl] at hhead; simp at hhead
          | cons x xs =>
              rw [hdl] at hhead
              simp at hhead
              subst hhead
              exact dropWhile_head_not hdl
        simp [List.dropWhile_cons, hcw]
  have claimB : (jsTrim l).reverse.dropWhile isWhite = (jsTrim l).reverse := by
    unfold jsTrim
    rw [List.reverse_reverse]
    exact List.dropWhile_idempotent isWhite _
  show ((((jsTrim l).dropWhile isWhite).reverse).dropWhile isWhite).reverse = jsTrim l
  rw [claimA, claimB, List.reverse_reverse]

theorem trim_removeCommentsL (x : List Char) :
    jsTrim (removeCommentsL x) = removeCommentsL x := by
  unfold removeCommentsL
  exact jsTrim_idem _

theorem trim_data_removeComments (sql : String) :
    jsTrim (removeComments sql).data = (removeComments sql).data := by
  show jsTrim (removeCommentsL sql.data) = removeCommentsL sql.data
  exact trim_removeCommentsL _

/-- On every accepted input the sanitized statement is the limit-enforced
form of the comment-stripped input (last lines of `validateSQL`). -/
theorem validateSQL_sanitized_eq (sql : String) (schema : List SchemaTable) (role : Role)
    (allow : Option (List String)) :
    (validateSQL sql schema role allow).is_valid = true →
      (validateSQL sql schema role allow).sanitized_sql
        = some (enforceLimit (removeComments sql)) := by
  unfold validateSQL
  repeat' split
  all_goals intro h
  all_goals simp_all [ValidationResult.reject, ValidationResult.accept]

theorem enforceLimit_clean_none (sql : String)
    (h1 : limitScan false (removeComments sql).data = none)
    (h2 : detectOperationType (removeComments sql) ≠ .SELECT) :
    enforceLimit (removeComments sql) = removeComments sql := by
  unfold enforceLimit
  rw [h1]
  dsimp only
  rw [if_neg h2]
  rw [trim_data_removeComments]

theorem enforceLimit_clean_none_select (sql : String)
    (h1 : limitScan false (removeComments sql).data = none)
    (h2 : detectOperationType (removeComments sql) = .SELECT) :
    enforceLimit (removeComments sql)
      = (⟨stripTrailSemis (removeComments sql).data⟩ : String) ++ " LIMIT "
          ++ toString DEFAULT_LIMIT := by
  unfold enforceLimit
  rw [h1]
  dsimp only
  rw [if_pos h2]
  rw [trim_data_removeComments]

theorem enforceLimit_clean_small (sql : String) (ds rem : List Char)
    (h1 : limitScan false (removeComments sql).data = some (ds, rem))
    (h2 : natOfDigits ds ≤ MAX_LIMIT) :
    enforceLimit (removeComments sql) = removeComments sql := by
  unfold enforceLimit
  rw [h1]
  dsimp only
  rw [if_neg (Nat.not_lt.mpr h2)]
  rw [trim_data_removeComments]

theorem enforceLimit_clean_big (sql : String) (ds rem : List Char)
    (h1 : limitScan false (removeComments sql).data = some (ds, rem))
    (h2 : natOfDigits ds > MAX_LIMIT) :
    enforceLimit (removeComments sql)
      = (⟨replaceLimitOnce false (removeComments sql).data⟩ : String) := by
  unfold enforceLimit
  rw [h1]
  dsimp only
  rw [if_pos h2]
  rw [trim_data_removeComments]

theorem missingTable_nil {cleaned : String} (schema : List SchemaTable)
    (h : extractTableNames cleaned = []) : missingTable cleaned schema = none := by
  unfold missingTable
  rw [h]
  rfl

theorem deniedTable_nil {cleaned : String} (role : Role) (allow : Option (List String))
    (h : extractTableNames cleaned = []) : deniedTable cleaned role allow = none := by
  unfold deniedTable
  cases role <;> cases allow <;> simp [h]

theorem badColumn_nil {cleaned : String} (schema : List SchemaTable)
    (h : extractTableNames cleaned = []) : badColumn cleaned schema = none := by
  unfold badColumn
  apply List.find?_eq_none.mpr
  intro x hx
  simp [columnsInQueryTables, tablesInQuery, h]

/-! ## Claims -/

/-- C1 (amended): every statement classified `Ddl` is rejected
(`valid = false`) by `validateSQL` for every role, schema and allowlist;
whenever the statement additionally passes the empty, multiple-statements
and blocked-pattern checks, the rejection reason is the DDL message.  (As
originally stated — reason always mentions DDL — the claim fails, because
an earlier gate check can fire first with its own reason.) -/
theorem C1_ddl_always_rejected (sql : String) (schema : List SchemaTable) (role : Role)
    (allow : Option (List String)) (hddl : detectOperationType (removeComments sql) = .DDL) :
    (validateSQL sql schema role allow).is_valid = false
    ∧ ((jsTrimS sql).length ≠ 0 → hasMultipleStatements (removeComments sql) = false →
        hasBlockedPatterns (removeComments sql) = none →
        (validateSQL sql schema role allow).reason = some ddlMsg) := by
  constructor
  · unfold validateSQL
    repeat' split
    all_goals simp_all [ValidationResult.reject, ValidationResult.accept]
  · intro h1 h2 h3
    unfold validateSQL
    rw [if_neg h1, if_neg (by simp [h2]), h3]
    dsimp only
    rw [if_pos hddl]
    rfl

/-- C1 counterexample to the claim as stated: `DROP TABLE a; DROP TABLE b`
is classified `Ddl`, yet its rejection reason is the multiple-statements
message, not a reason mentioning DDL. -/
theorem C1_counterexample :
    detectOperationType (removeComments "DROP TABLE a; DROP TABLE b") = .DDL
    ∧ (validateSQL "DROP TABLE a; DROP TABLE b" demoSchema .creator none).reason = some multiMsg
    ∧ multiMsg ≠ ddlMsg := by
  refine ⟨by decide, by decide, by decide⟩

/-- C1 witness: `DROP TABLE demo_users` is rejected with the DDL reason for
the Privileged role, and rejected for the Restricted role as well. -/
theorem C1_witness :
    (validateSQL "DROP TABLE demo_users" demoSchema .creator none).is_valid = false
    ∧ (validateSQL "DROP TABLE demo_users" demoSchema .creator none).reason = some ddlMsg
    ∧ (validateSQL "DROP TABLE demo_users" demoSchema .user none).is_valid = false := by
  refine ⟨(C1_ddl_always_rejected "DROP TABLE demo_users" demoSchema .creator none
      (by decide)).1,
    (C1_ddl_always_rejected "DROP TABLE demo_users" demoSchema .creator none
      (by decide)).2 (by decide) (by decide) (by decide),
    (C1_ddl_always_rejected "DROP TABLE demo_users" demoSchema .user none (by decide)).1⟩

/-- C2: every input whose comment-stripped text (with quoted literals
removed) splits on `;` into more than one non-whitespace fragment is
rejected with the multiple-statements reason — a returned rejection value,
never an exception — before the blocked-pattern, DDL, and permission
checks. -/
theorem C2_multiple_statements_rejected (sql : String) (schema : List SchemaTable)
    (role : Role) (allow : Option (List String))
    (h : hasMultipleStatements (removeComments sql) = true) :
    validateSQL sql schema role allow = ValidationResult.reject multiMsg := by
  unfold validateSQL
  rw [if_neg (multi_trim_ne h), if_pos h]

/-- C2 witness: `SELECT 1; DROP TABLE demo_users` is rejected at the
multiple-statements check. -/
theorem C2_witness :
    validateSQL "SELECT 1; DROP TABLE demo_users" demoSchema .user none
      = ValidationResult.reject multiMsg :=
  C2_multiple_statements_rejected "SELECT 1; DROP TABLE demo_users" demoSchema .user none
    (by decide)

/-- C3: every Update or Delete statement without `WHERE` in its upper-cased
text is analysed as risk `critical`, estimated rows `all`, confirmation
required; in particular `DELETE FROM demo_orders` validates successfully
with exactly that analysis. -/
theorem C3_write_without_where_critical :
    (∀ (sql : String) (schema : List SchemaTable),
      (detectOperationType sql = .UPDATE ∨ detectOperationType sql = .DELETE) →
      containsSub "WHERE".data (jsToUpper sql.data) = false →
      (analyzeOperation sql schema).risk_level = .critical
        ∧ (analyzeOperation sql schema).estimated_rows = "all"
        ∧ (analyzeOperation sql schema).requires_confirmation = true)
    ∧ (validateSQL "DELETE FROM demo_orders" demoSchema .creator none).is_valid = true
    ∧ (validateSQL "DELETE FROM demo_orders" demoSchema .creator none).operation_analysis.map
        OperationAnalysis.risk_level = some .critical
    ∧ (validateSQL "DELETE FROM demo_orders" demoSchema .creator none).operation_analysis.map
        OperationAnalysis.estimated_rows = some "all"
    ∧ (validateSQL "DELETE FROM demo_orders" demoSchema .creator none).operation_analysis.map
        OperationAnalysis.requires_confirmation = some true := by
  refine ⟨?_, by decide, by decide, by decide, by decide⟩
  intro sql schema hop hw
  rcases hop with h | h <;> simp [analyzeOperation, h, hw]

/-- C3 witness: the universal part applied to `DELETE FROM demo_orders`. -/
theorem C3_witness :
    (analyzeOperation "DELETE FROM demo_orders" demoSchema).risk_level = .critical
    ∧ (analyzeOperation "DELETE FROM demo_orders" demoSchema).estimated_rows = "all"
    ∧ (analyzeOperation "DELETE FROM demo_orders" demoSchema).requires_confirmation = true :=
  C3_write_without_where_critical.1 "DELETE FROM demo_orders" demoSchema
    (Or.inr (by decide)) (by decide)

/-- C4: for every accepted Select statement, if the comment-stripped text
contains a numeric `LIMIT n` (first match) with `n > 1000`, the sanitized
statement is the text with that `LIMIT` clause replaced by `LIMIT 1000`;
if it contains no `LIMIT`, the sanitized statement is the text with any
trailing semicolons removed and ` LIMIT 100` appended.  In particular
`SELECT * FROM demo_users` sanitizes to a statement ending in `LIMIT 100`
and `SELECT * FROM demo_users LIMIT 5000` sanitizes to a statement
containing `LIMIT 1000` and not `5000`. -/
theorem C4_limit_enforcer_select :
    (∀ (sql : String) (schema : List SchemaTable) (role : Role) (allow : Option (List String)),
      (validateSQL sql schema role allow).is_valid = true →
      detectOperationType (removeComments sql) = .SELECT →
      ((∀ ds rem, limitScan false (removeComments sql).data = some (ds, rem) →
          natOfDigits ds > MAX_LIMIT →
          (validateSQL sql schema role allow).sanitized_sql
            = some (⟨replaceLimitOnce false (removeComments sql).data⟩ : String))
       ∧ (limitScan false (removeComments sql).data = none →
          (validateSQL sql schema role allow).sanitized_sql
            = some ((⟨stripTrailSemis (removeComments sql).data⟩ : String) ++ " LIMIT "
                ++ toString DEFAULT_LIMIT))))
    ∧ (validateSQL "SELECT * FROM demo_users" demoSchema .user none).sanitized_sql
        = some "SELECT * FROM demo_users LIMIT 100"
    ∧ ("LIMIT 100".data.isSuffixOf "SELECT * FROM demo_users LIMIT 100".data) = true
    ∧ (validateSQL "SELECT * FROM demo_users LIMIT 5000" demoSchema .user none).sanitized_sql
        = some "SELECT * FROM demo_users LIMIT 1000"
    ∧ containsSub "LIMIT 1000".data "SELECT * FROM demo_users LIMIT 1000".data = true
    ∧ containsSub "5000".data "SELECT * FROM demo_users LIMIT 1000".data = false := by
  refine ⟨?_, by decide, by decide, by decide, by decide, by decide⟩
  intro sql schema role allow hv hsel
  have hs := validateSQL_sanitized_eq sql schema role allow hv
  constructor
  · intro ds rem h1 h2
    rw [hs, enforceLimit_clean_big sql ds rem h1 h2]
  · intro h1
    rw [hs, enforceLimit_clean_none_select sql h1 hsel]

/-- C4 witness: the universal clamp branch applied to
`SELECT * FROM demo_users LIMIT 5000` and the injection branch applied to
`SELECT * FROM demo_users`. -/
theorem C4_witness :
    (validateSQL "SELECT * FROM demo_users LIMIT 5000" demoSchema .user none).sanitized_sql
      = some (⟨replaceLimitOnce false
          (removeComments "SELECT * FROM demo_users LIMIT 5000").data⟩ : String)
    ∧ (validateSQL "SELECT * FROM demo_users" demoSchema .user none).sanitized_sql
      = some ((⟨stripTrailSemis (removeComments "SELECT * FROM demo_users").data⟩ : String)
          ++ " LIMIT " ++ toString DEFAULT_LIMIT) :=
  ⟨(C4_limit_enforcer_select.1 "SELECT * FROM demo_users LIMIT 5000" demoSchema .user none
      (by decide) (by decide)).1 "5000".data [] (by decide) (by decide),
   (C4_limit_enforcer_select.1 "SELECT * FROM demo_users" demoSchema .user none
      (by decide) (by decide)).2 (by decide)⟩

/-- C5 (amended): the Limit Enforcer's default-injection branch applies
only to Select statements, but its clamp branch applies to every
statement: for an accepted non-Select statement, the sanitized statement
equals the comment-stripped text unmodified when that text contains no
numeric `LIMIT` (or one of at most 1000), while a numeric `LIMIT n` with
`n > 1000` is rewritten to `LIMIT 1000` by text substitution even for
Insert/Update/Delete.  (As originally stated — non-Select always passes
through unmodified — the claim fails on the clamp branch.) -/
theorem C5_limit_enforcer_nonselect (sql : String) (schema : List SchemaTable) (role : Role)
    (allow : Option (List String))
    (hv : (validateSQL sql schema role allow).is_valid = true)
    (hns : detectOperationType (removeComments sql) ≠ .SELECT) :
    (limitScan false (removeComments sql).data = none →
        (validateSQL sql schema role allow).sanitized_sql = some (removeComments sql))
    ∧ (∀ ds rem, limitScan false (removeComments sql).data = some (ds, rem) →
        natOfDigits ds ≤ MAX_LIMIT →
        (validateSQL sql schema role allow).sanitized_sql = some (removeComments sql))
    ∧ (∀ ds rem, limitScan false (removeComments sql).data = some (ds, rem) →
        natOfDigits ds > MAX_LIMIT →
        (validateSQL sql schema role allow).sanitized_sql
          = some (⟨replaceLimitOnce false (removeComments sql).data⟩ : String)) := by
  have hs := validateSQL_sanitized_eq sql schema role allow hv
  refine ⟨?_, ?_, ?_⟩
  · intro h1
    rw [hs, enforceLimit_clean_none sql h1 hns]
  · intro ds rem h1 h2
    rw [hs, enforceLimit_clean_small sql ds rem h1 h2]
  · intro ds rem h1 h2
    rw [hs, enforceLimit_clean_big sql ds rem h1 h2]

/-- C5 counterexample to the claim as stated: the accepted Delete
statement `DELETE FROM demo_orders WHERE status = id LIMIT 5000` does not
pass through the Limit Enforcer unmodified — its `LIMIT 5000` is
rewritten to `LIMIT 1000`. -/
theorem C5_counterexample :
    (validateSQL "DELETE FROM demo_orders WHERE status = id LIMIT 5000" demoSchema
        .creator none).is_valid = true
    ∧ detectOperationType
        (removeComments "DELETE FROM demo_orders WHERE status = id LIMIT 5000") = .DELETE
    ∧ (validateSQL "DELETE FROM demo_orders WHERE status = id LIMIT 5000" demoSchema
        .creator none).sanitized_sql
        = some "DELETE FROM demo_orders WHERE status = id LIMIT 1000"
    ∧ (validateSQL "DELETE FROM demo_orders WHERE status = id LIMIT 5000" demoSchema
        .creator none).sanitized_sql
        ≠ some "DELETE FROM demo_orders WHERE status = id LIMIT 5000" := by
  refine ⟨by decide, by decide, by decide, by decide⟩

/-- C5 witness: the no-`LIMIT` branch applied to the accepted non-Select
statement `DELETE FROM demo_orders`, which passes through unmodified. -/
theorem C5_witness :
    (validateSQL "DELETE FROM demo_orders" demoSchema .creator none).sanitized_sql
      = some (removeComments "DELETE FROM demo_orders")
    ∧ removeComments "DELETE FROM demo_orders" = "DELETE FROM demo_orders" :=
  ⟨(C5_limit_enforcer_nonselect "DELETE FROM demo_orders" demoSchema .creator none
      (by decide) (by decide)).1 (by decide),
   by decide⟩

/-- C6 (amended): the table allowlist is enforced only for the
Restricted/user role: with a supplied allowlist, a statement referencing a
table absent (case-insensitively) from it is rejected for the user role,
while for the Privileged/creator role the allowlist argument is ignored
entirely.  (As originally stated — the allowlist applies to every role —
the claim fails for the creator role.) -/
theorem C6_allowlist_user_only :
    (∀ (sql : String) (schema : List SchemaTable) (allow : List String) (t : String),
      t ∈ extractTableNames (removeComments sql) →
      ((allow.map jsToLowerS).contains t) = false →
      (validateSQL sql schema .user (some allow)).is_valid = false)
    ∧ (∀ (sql : String) (schema : List SchemaTable) (allow : List String),
        validateSQL sql schema .creator (some allow) = validateSQL sql schema .creator none) := by
  constructor
  · intro sql schema allow t ht hcon
    have hfind : (extractTableNames (removeComments sql)).find?
        (fun t2 => !((allow.map jsToLowerS).contains t2)) ≠ none := by
      intro hn
      have h2 := List.find?_eq_none.mp hn t ht
      rw [hcon] at h2
      simp at h2
    obtain ⟨u, hu⟩ := Option.ne_none_iff_exists'.mp hfind
    have hden : deniedTable (removeComments sql) .user (some allow) = some u := by
      simp only [deniedTable]
      exact hu
    unfold validateSQL
    rw [hden]
    repeat' split
    all_goals first
      | rfl
      | simp_all
  · intro sql schema allow
    have hden : deniedTable (removeComments sql) .creator (some allow)
        = deniedTable (removeComments sql) .creator none := rfl
    unfold validateSQL
    rw [hden]

/-- C6 counterexample to the claim as stated: with allowlist
`demo_products` supplied, the creator role still validates
`SELECT * FROM demo_users` even though `demo_users` is not in the
allowlist. -/
theorem C6_counterexample :
    (validateSQL "SELECT * FROM demo_users" demoSchema .creator
        (some ["demo_products"])).is_valid = true
    ∧ "demo_users" ∈ extractTableNames (removeComments "SELECT * FROM demo_users")
    ∧ (["demo_products"].map jsToLowerS).contains "demo_users" = false := by
  refine ⟨by decide, by decide, by decide⟩

/-- C6 witness: the user role with the same allowlist is rejected. -/
theorem C6_witness :
    (validateSQL "SELECT * FROM demo_users" demoSchema .user
        (some ["demo_products"])).is_valid = false :=
  C6_allowlist_user_only.1 "SELECT * FROM demo_users" demoSchema ["demo_products"]
    "demo_users" (by decide) (by decide)

/-- C7: field-presence invariant of `ValidationResult`: for every input,
`sanitized_sql` and `operation_analysis` are present exactly when
`is_valid` is true, and `reason` is present exactly when `is_valid` is
false. -/
theorem C7_field_presence_invariant (sql : String) (schema : List SchemaTable) (role : Role)
    (allow : Option (List String)) :
    ((validateSQL sql schema role allow).sanitized_sql.isSome
        = (validateSQL sql schema role allow).is_valid)
    ∧ ((validateSQL sql schema role allow).operation_analysis.isSome
        = (validateSQL sql schema role allow).is_valid)
    ∧ ((validateSQL sql schema role allow).reason.isSome
        = !(validateSQL sql schema role allow).is_valid) := by
  unfold validateSQL
  repeat' split
  all_goals simp [ValidationResult.reject, ValidationResult.accept]

/-- C8: both roles are granted identical operation sets, so with no
allowlist supplied the role-permission check passes for the creator
exactly when it passes for the user, and the overall verdict of
`validateSQL` does not depend on the role. -/
theorem C8_roles_equivalent :
    (∀ op : OperationType,
      (ROLE_PERMISSIONS .creator).contains op = (ROLE_PERMISSIONS .user).contains op)
    ∧ ∀ (sql : String) (schema : List SchemaTable),
        (validateSQL sql schema .creator none).is_valid
          = (validateSQL sql schema .user none).is_valid := by
  constructor
  · intro op; rfl
  · intro sql schema
    unfold validateSQL
    have hperm : ROLE_PERMISSIONS .creator = ROLE_PERMISSIONS .user := rfl
    have hden : deniedTable (removeComments sql) .creator none
        = deniedTable (removeComments sql) .user none := rfl
    rw [hperm, hden]
    repeat' split
    all_goals simp [ValidationResult.reject, ValidationResult.accept]

/-- C9: for every accepted statement, the sanitized statement is computed
from the comment-stripped, trimmed form of the input:
`sanitized_sql = enforceLimit (removeComments sql)`, so comment text never
reaches the executor. -/
theorem C9_sanitized_from_comment_stripped (sql : String) (schema : List SchemaTable)
    (role : Role) (allow : Option (List String)) :
    (validateSQL sql schema role allow).is_valid = true →
      (validateSQL sql schema role allow).sanitized_sql
        = some (enforceLimit (removeComments sql)) :=
  validateSQL_sanitized_eq sql schema role allow

/-- C9 witness: on an accepted input carrying a line comment, the
sanitized statement is the limit-enforced comment-stripped text, with the
comment gone. -/
theorem C9_witness :
    (validateSQL "SELECT 1 -- hidden note" demoSchema .user none).sanitized_sql
      = some (enforceLimit (removeComments "SELECT 1 -- hidden note"))
    ∧ enforceLimit (removeComments "SELECT 1 -- hidden note") = "SELECT 1 LIMIT 100" :=
  ⟨C9_sanitized_from_comment_stripped "SELECT 1 -- hidden note" demoSchema .user none
      (by decide),
   by decide⟩

/-- C10: for every statement from which the table extractor yields no
table name, the table-existence, allowlist and column-existence checks
pass vacuously — the verdict is the same as with the empty schema and no
allowlist; in particular `SELECT 1` validates for every schema, role and
allowlist with sanitized statement `SELECT 1 LIMIT 100`. -/
theorem C10_no_tables_vacuous (sql : String) (schema : List SchemaTable) (role : Role)
    (allow : Option (List String)) (h : extractTableNames (removeComments sql) = []) :
    validateSQL sql schema role allow = validateSQL sql [] role none
    ∧ (validateSQL "SELECT 1" schema role allow).is_valid = true
    ∧ (validateSQL "SELECT 1" schema role allow).sanitized_sql = some "SELECT 1 LIMIT 100" := by
  have main : ∀ (sql2 : String), extractTableNames (removeComments sql2) = [] →
      validateSQL sql2 schema role allow = validateSQL sql2 [] role none := by
    intro sql2 h2
    unfold validateSQL
    rw [missingTable_nil schema h2, missingTable_nil [] h2,
        deniedTable_nil role allow h2, deniedTable_nil role none h2,
        badColumn_nil schema h2, badColumn_nil [] h2]
    have hAO : analyzeOperation (removeComments sql2) schema
        = analyzeOperation (removeComments sql2) [] := rfl
    dsimp only
    rw [hAO]
  refine ⟨main sql h, ?_, ?_⟩
  · rw [main "SELECT 1" (by decide)]
    cases role <;> decide
  · rw [main "SELECT 1" (by decide)]
    cases role <;> decide

/-- C10 witness: `SELECT 1` with an allowlist that covers no table at all
still validates, with the same result as under the empty schema. -/
theorem C10_witness :
    (validateSQL "SELECT 1" demoSchema .user (some ["demo_products"])).is_valid = true
    ∧ (validateSQL "SELECT 1" demoSchema .user (some ["demo_products"])).sanitized_sql
        = some "SELECT 1 LIMIT 100"
    ∧ validateSQL "SELECT 1" demoSchema .user (some ["demo_products"])
        = validateSQL "SELECT 1" [] .user none :=
  ⟨(C10_no_tables_vacuous "SELECT 1" demoSchema .user (some ["demo_products"])
      (by decide)).2.1,
   (C10_no_tables_vacuous "SELECT 1" demoSchema .user (some ["demo_products"])
      (by decide)).2.2,
   (C10_no_tables_vacuous "SELECT 1" demoSchema .user (some ["demo_products"])
      (by decide)).1⟩
